import Mathlib

/-!
Shallow embedding of `src/jtag_dpi.cpp` (the JTAG DPI bridge).

The bridge's module-level state (the `s_...` statics of the C++ file) is a
`BridgeState`.  Socket I/O is modelled by oracles supplied to each call:
the bytes pending on the connection socket (`queue`), what `recv` reports
once they are exhausted (`recv_end`), whether `send` succeeds (`sendOk`),
and whether an incoming connection is pending on the listening socket
(`accept`).  Exceptions thrown inside the C++ code are modelled with
`Except`; the error payload carries the state, signals and bytes already
sent at the moment of the throw, because the C++ globals and the caller's
signal storage keep those effects when an exception propagates.
Assertions are modelled as no-ops (the release build of the module).
-/

/-- Return code RET_SUCCESS of jtag_dpi.cpp. -/
def RET_SUCCESS : Int := 0

/-- Return code RET_FAILURE of jtag_dpi.cpp. -/
def RET_FAILURE : Int := 1

/-- The clock notification sentinel byte CLOCK_NOTIFICATION_MSG = 0xFF. -/
def CLOCK_NOTIFICATION_MSG : Nat := 0xFF

/-- connection_state_enum of jtag_dpi.cpp. -/
inductive connection_state_enum where
  | cs_invalid
  | cs_waiting_to_receive_commands
  | cs_waiting_to_send_clock_notification
  deriving DecidableEq, Repr

/-- The four JTAG output signals, stored by the caller and passed by
pointer into jtag_dpi_tick.  They are unsigned char in C. -/
structure Signals where
  jtag_tms : Nat
  jtag_tck : Nat
  jtag_trst : Nat
  jtag_tdi : Nat
  deriving DecidableEq, Repr

/-- The module-level static variables of jtag_dpi.cpp.  The two socket
file descriptors are modelled by whether a socket is present
(`true` corresponds to fd != -1). -/
structure BridgeState where
  s_already_initialized : Bool
  s_listening_tcp_port : Nat
  s_listeningSocket : Bool
  s_listen_on_local_addr_only : Bool
  s_print_informational_messages : Bool
  s_listening_message_already_printed : Bool
  s_connectionSocket : Bool
  s_connectionState : connection_state_enum
  s_jtag_tck_half_period_tick_count : Int
  s_clock_notification_counter : Int
  deriving DecidableEq, Repr

/-- What recv reports once the pending bytes are exhausted:
EAGAIN/EWOULDBLOCK, a zero-length read (peer closed), or a fatal errno. -/
inductive recv_end where
  | wouldBlock
  | peerClosed
  | fatalError
  deriving DecidableEq, Repr

/-- Sending one byte and continuing the receive loop: the byte just sent
is prepended to whatever the rest of the loop sends, in both the normal
and the exceptional outcome. -/
def send_and_continue (v : Nat)
    (r : Except (String × BridgeState × Signals × List Nat)
      (BridgeState × Signals × List Nat)) :
    Except (String × BridgeState × Signals × List Nat)
      (BridgeState × Signals × List Nat) :=
  match r with
  | .ok (s2, sig2, sent) => .ok (s2, sig2, v :: sent)
  | .error (m, s2, sig2, sent) => .error (m, s2, sig2, v :: sent)

/-- The receive_commands loop of jtag_dpi.cpp.  `queue` is the sequence of
bytes recv will deliver this tick, `e` what recv reports after them, and
`sendOk` whether send succeeds.  The result is the new state, the new
signals and the list of bytes sent; an error result models a thrown
exception and carries the state, signals and sent bytes at the throw. -/
def receive_commands (s : BridgeState) (sig : Signals) (jtag_tdo : Nat)
    (queue : List Nat) (e : recv_end) (sendOk : Bool) :
    Except (String × BridgeState × Signals × List Nat)
      (BridgeState × Signals × List Nat) :=
  match queue with
  | [] =>
      match e with
      | .peerClosed => .ok ({ s with s_connectionSocket := false }, sig, [])
      | .wouldBlock => .ok (s, sig, [])
      | .fatalError => .error ("Error receiving data", s, sig, [])
  | received_data :: rest =>
      if received_data &&& 0x80 ≠ 0 then
        if received_data = 0x80 then
          if sendOk then
            let reply := if jtag_tdo ≠ 0 then 1 else 0
            if s.s_connectionState = .cs_waiting_to_send_clock_notification then
              .ok (s, sig, [reply])
            else
              send_and_continue reply (receive_commands s sig jtag_tdo rest e sendOk)
          else .error ("Error sending data", s, sig, [])
        else if received_data = 0x81 then
          if s.s_clock_notification_counter = 0 then
            if sendOk then
              if s.s_connectionState = .cs_waiting_to_send_clock_notification then
                .ok (s, sig, [CLOCK_NOTIFICATION_MSG])
              else
                send_and_continue CLOCK_NOTIFICATION_MSG
                  (receive_commands s sig jtag_tdo rest e sendOk)
            else .error ("Error sending data", s, sig, [])
          else
            .ok ({ s with
                    s_connectionState := .cs_waiting_to_send_clock_notification },
                 sig, [])
        else
          .error ("Invalid command received", s, sig, [])
      else
        if received_data &&& 0xf0 ≠ 0 then
          .error ("Invalid JTAG data byte received", s, sig, [])
        else
          let sig2 : Signals :=
            { jtag_tck := if received_data &&& 0x01 ≠ 0 then 1 else 0
              jtag_trst := if received_data &&& 0x02 ≠ 0 then 1 else 0
              jtag_tdi := if received_data &&& 0x04 ≠ 0 then 1 else 0
              jtag_tms := if received_data &&& 0x08 ≠ 0 then 1 else 0 }
          if sendOk then
            let s2 := { s with
              s_clock_notification_counter := s.s_jtag_tck_half_period_tick_count }
            if s2.s_connectionState = .cs_waiting_to_send_clock_notification then
              .ok (s2, sig2, [received_data ||| 0x10])
            else
              send_and_continue (received_data ||| 0x10)
                (receive_commands s2 sig2 jtag_tdo rest e sendOk)
          else .error ("Error sending data", s, sig2, [])

/-- The body of serve_connection (everything inside its try block),
after the saturating decrement has produced state `s1`. -/
def serve_connection_body (s1 : BridgeState) (sig : Signals) (jtag_tdo : Nat)
    (queue : List Nat) (e : recv_end) (sendOk : Bool) :
    Except (String × BridgeState × Signals × List Nat)
      (BridgeState × Signals × List Nat) :=
  match s1.s_connectionState with
  | .cs_waiting_to_receive_commands =>
      receive_commands s1 sig jtag_tdo queue e sendOk
  | .cs_waiting_to_send_clock_notification =>
      if s1.s_clock_notification_counter = 0 then
        if sendOk then
          let s2 := { s1 with
            s_connectionState := .cs_waiting_to_receive_commands }
          send_and_continue CLOCK_NOTIFICATION_MSG
            (receive_commands s2 sig jtag_tdo queue e sendOk)
        else .error ("Error sending data", s1, sig, [])
      else .ok (s1, sig, [])
  | .cs_invalid => .ok (s1, sig, [])

/-- The saturating decrement serve_connection applies to the clock
notification counter at the start of every tick. -/
def tick_decrement (c : Int) : Int := if 0 < c then c - 1 else c

/-- serve_connection of jtag_dpi.cpp: decrement the counter, dispatch on
the connection state, and catch any exception by closing the connection. -/
def serve_connection (s : BridgeState) (sig : Signals) (jtag_tdo : Nat)
    (queue : List Nat) (e : recv_end) (sendOk : Bool) :
    BridgeState × Signals × List Nat :=
  let s1 := { s with
    s_clock_notification_counter := tick_decrement s.s_clock_notification_counter }
  match serve_connection_body s1 sig jtag_tdo queue e sendOk with
  | .ok r => r
  | .error (_, s4, sig4, sent) => ({ s4 with s_connectionSocket := false }, sig4, sent)

/-- create_listening_socket of jtag_dpi.cpp, with socket creation, option
setting, bind and listen all succeeding.  Returns the new state and
whether the bind-address informational message was printed by this call. -/
def create_listening_socket (s : BridgeState) : BridgeState × Bool :=
  if s.s_listening_message_already_printed then
    ({ s with s_listeningSocket := true }, false)
  else
    ({ s with
        s_listeningSocket := true
        s_listening_message_already_printed := true },
     s.s_print_informational_messages)

/-- The per-call oracle inputs of jtag_dpi_tick: the TDO input bit, the
bytes pending on the connection, what recv reports after them, whether
send succeeds, and the listening-socket poll/accept outcome
(`none` = no pending connection, `some ok` = pending, accept succeeds
iff `ok`; an accept failure is non-fatal and leaves the bridge listening). -/
structure tick_input where
  jtag_tdo : Nat
  queue : List Nat
  e : recv_end
  sendOk : Bool
  accept : Option Bool
  deriving DecidableEq, Repr

/-- jtag_dpi_tick of jtag_dpi.cpp.  Returns the status, the new module
state, the caller's signal storage after the call, the bytes sent to the
client, and whether the bind-address message was printed. -/
def jtag_dpi_tick (s : BridgeState) (sig : Signals) (i : tick_input) :
    Int × BridgeState × Signals × List Nat × Bool :=
  if ¬ s.s_already_initialized then (RET_FAILURE, s, sig, [], false)
  else
    let ap : BridgeState × Bool :=
      if ¬ s.s_connectionSocket then
        let lp := if ¬ s.s_listeningSocket then create_listening_socket s
                  else (s, false)
        let sA :=
          match i.accept with
          | none => lp.1
          | some false => lp.1
          | some true =>
              { lp.1 with
                  s_connectionSocket := true
                  s_connectionState := .cs_waiting_to_receive_commands
                  s_listeningSocket := false }
        (sA, lp.2)
      else (s, false)
    if ap.1.s_connectionSocket then
      let r := serve_connection ap.1 sig i.jtag_tdo i.queue i.e i.sendOk
      (RET_SUCCESS, r.1, r.2.1, r.2.2, ap.2)
    else (RET_SUCCESS, ap.1, sig, [], ap.2)

/-- jtag_dpi_init of jtag_dpi.cpp, with socket creation succeeding.
Validation failures return RET_FAILURE together with the partially
updated state (the C++ code stores each parameter before validating the
next).  Returns the status, the new state, and whether the bind-address
message was printed. -/
def jtag_dpi_init (s : BridgeState) (tcp_port : Int)
    (listen_on_local_addr_only : Nat) (jtag_tck_half_period_tick_count : Int)
    (print_informational_messages : Nat) : Int × BridgeState × Bool :=
  if s.s_already_initialized then (RET_FAILURE, s, false)
  else if tcp_port = 0 then (RET_FAILURE, s, false)
  else
    let s1 := { s with s_listening_tcp_port := (tcp_port % 65536).toNat }
    if print_informational_messages = 0 ∨ print_informational_messages = 1 then
      let s2 := { s1 with
        s_print_informational_messages := print_informational_messages = 1 }
      if listen_on_local_addr_only = 0 ∨ listen_on_local_addr_only = 1 then
        let s3 := { s2 with
          s_listen_on_local_addr_only := listen_on_local_addr_only = 1 }
        if jtag_tck_half_period_tick_count = 0 then (RET_FAILURE, s3, false)
        else
          let s4 := { s3 with
            s_jtag_tck_half_period_tick_count := jtag_tck_half_period_tick_count }
          let s5 := { s4 with
            s_listeningSocket := false
            s_listening_message_already_printed := false
            s_connectionSocket := false
            s_connectionState := .cs_invalid }
          let cr := create_listening_socket s5
          (RET_SUCCESS, { cr.1 with s_already_initialized := true }, cr.2)
      else (RET_FAILURE, s2, false)
    else (RET_FAILURE, s1, false)

/-- jtag_dpi_terminate of jtag_dpi.cpp (assertions disabled: calling it
without prior init is a no-op). -/
def jtag_dpi_terminate (s : BridgeState) : BridgeState :=
  if ¬ s.s_already_initialized then s
  else { s with
          s_listeningSocket := false
          s_connectionSocket := false
          s_already_initialized := false }

/-- One call into the module from the external harness. -/
inductive dpi_event where
  | ev_init (tcp_port : Int) (listen_on_local_addr_only : Nat)
      (jtag_tck_half_period_tick_count : Int)
      (print_informational_messages : Nat)
  | ev_tick (i : tick_input)
  | ev_terminate
  deriving DecidableEq, Repr

/-- One step of the process: dispatch an event to the corresponding entry
point.  Returns the new (module state, signal storage) and the call's
observables (status, bytes sent, bind-address message printed). -/
def dpi_step (p : BridgeState × Signals) (ev : dpi_event) :
    (BridgeState × Signals) × (Int × List Nat × Bool) :=
  match ev with
  | .ev_init port ll half vb =>
      let r := jtag_dpi_init p.1 port ll half vb
      ((r.2.1, p.2), (r.1, [], r.2.2))
  | .ev_tick i =>
      let r := jtag_dpi_tick p.1 p.2 i
      ((r.2.1, r.2.2.1), (r.1, r.2.2.2.1, r.2.2.2.2))
  | .ev_terminate => ((jtag_dpi_terminate p.1, p.2), (0, [], false))

/-- Run a sequence of calls, returning the final state. -/
def dpi_run (p : BridgeState × Signals) (es : List dpi_event) :
    BridgeState × Signals :=
  match es with
  | [] => p
  | ev :: rest => dpi_run (dpi_step p ev).1 rest

/-- How many times the bind-address informational message is printed
during a sequence of calls. -/
def dpi_run_prints (p : BridgeState × Signals) (es : List dpi_event) : Nat :=
  match es with
  | [] => 0
  | ev :: rest =>
      (if (dpi_step p ev).2.2.2 then 1 else 0) + dpi_run_prints (dpi_step p ev).1 rest

/-- The module-level statics at process start (zero-initialized). -/
def initial_bridge_state : BridgeState :=
  { s_already_initialized := false
    s_listening_tcp_port := 0
    s_listeningSocket := false
    s_listen_on_local_addr_only := false
    s_print_informational_messages := false
    s_listening_message_already_printed := false
    s_connectionSocket := false
    s_connectionState := .cs_invalid
    s_jtag_tck_half_period_tick_count := 0
    s_clock_notification_counter := 0 }

/-- The all-zero signal storage. -/
def sig_zero : Signals :=
  { jtag_tms := 0, jtag_tck := 0, jtag_trst := 0, jtag_tdi := 0 }

/-- An initialized module state with an accepted connection awaiting
commands and a half period of 3 ticks. -/
def connected_state : BridgeState :=
  { initial_bridge_state with
      s_already_initialized := true
      s_connectionSocket := true
      s_connectionState := .cs_waiting_to_receive_commands
      s_jtag_tck_half_period_tick_count := 3 }

/-- The bridge state carried by a receive_commands outcome (on error, the
state at the moment of the throw). -/
def except_bridge (r : Except (String × BridgeState × Signals × List Nat)
    (BridgeState × Signals × List Nat)) : BridgeState :=
  match r with
  | .ok (s, _, _) => s
  | .error (_, s, _, _) => s

/-- The signal storage carried by a receive_commands outcome. -/
def except_signals (r : Except (String × BridgeState × Signals × List Nat)
    (BridgeState × Signals × List Nat)) : Signals :=
  match r with
  | .ok (_, g, _) => g
  | .error (_, _, g, _) => g

/-- Selecting bit i of a byte the way receive_commands does equals the
shifted-and-masked form. -/
lemma bit_select (b i : Nat) : (if b &&& 2 ^ i ≠ 0 then 1 else 0) = b >>> i &&& 1 := by
  rw [Nat.and_two_pow, Nat.and_one_is_mod, Nat.shiftRight_eq_div_pow]
  rcases h : b.testBit i with _ | _
  · rw [Nat.testBit_to_div_mod] at h
    simp at h ⊢
    omega
  · rw [Nat.testBit_to_div_mod] at h
    simp at h ⊢
    simp [h]

/-- C1: for a connected client awaiting commands, a received byte b with
bit 7 clear and bits 4-6 clear sets TCK := b&1, TRST := (b>>1)&1,
TDI := (b>>2)&1, TMS := (b>>3)&1, sends back exactly the single
acknowledgement byte b | 0x10, and resets the clock notification counter
to the configured half-period value. -/
theorem c1_signal_data_byte_processing (s : BridgeState) (sig : Signals)
    (tdo b : Nat)
    (hconn : s.s_connectionSocket = true)
    (hstate : s.s_connectionState = .cs_waiting_to_receive_commands)
    (hb : b < 256) (h7 : b &&& 0x80 = 0) (h46 : b &&& 0x70 = 0) :
    serve_connection s sig tdo [b] .wouldBlock true =
      ({ s with s_clock_notification_counter := s.s_jtag_tck_half_period_tick_count },
       { jtag_tms := b >>> 3 &&& 1, jtag_tck := b &&& 1,
         jtag_trst := b >>> 1 &&& 1, jtag_tdi := b >>> 2 &&& 1 },
       [b ||| 0x10]) := by
  have hf0 : b &&& 0xf0 = 0 := by
    have h : (0xf0 : Nat) = 0x80 ||| 0x70 := by decide
    rw [h, Nat.and_or_distrib_left, h7, h46]
    decide
  have e0 := bit_select b 0
  have e1 := bit_select b 1
  have e2 := bit_select b 2
  have e3 := bit_select b 3
  norm_num [Nat.shiftRight_zero] at e0 e1 e2 e3
  simp [serve_connection, serve_connection_body, receive_commands, send_and_continue,
    hstate, h7, hf0, e0, e1, e2, e3]

/-- Witness for C1 at byte 0x09 (TMS=1, TCK=1). -/
theorem c1_signal_data_byte_processing_witness :
    serve_connection connected_state sig_zero 0 [9] .wouldBlock true =
      ({ connected_state with
          s_clock_notification_counter :=
            connected_state.s_jtag_tck_half_period_tick_count },
       { jtag_tms := 9 >>> 3 &&& 1, jtag_tck := 9 &&& 1,
         jtag_trst := 9 >>> 1 &&& 1, jtag_tdi := 9 >>> 2 &&& 1 },
       [9 ||| 0x10]) :=
  c1_signal_data_byte_processing connected_state sig_zero 0 9 rfl rfl
    (by decide) (by decide) (by decide)

/-- C4: a received byte with bit 7 clear and any of bits 4-6 set closes
the connection, sends no acknowledgement and leaves the four output
signals untouched (any bytes queued behind it are not processed). -/
theorem c4_malformed_signal_byte (s : BridgeState) (sig : Signals)
    (tdo b : Nat) (rest : List Nat) (e : recv_end) (ok : Bool)
    (hconn : s.s_connectionSocket = true)
    (hstate : s.s_connectionState = .cs_waiting_to_receive_commands)
    (hb : b < 256) (h7 : b &&& 0x80 = 0) (h46 : b &&& 0x70 ≠ 0) :
    serve_connection s sig tdo (b :: rest) e ok =
      ({ s with
          s_clock_notification_counter := tick_decrement s.s_clock_notification_counter
          s_connectionSocket := false },
       sig, []) := by
  have hf0 : b &&& 0xf0 ≠ 0 := by
    have h : (0xf0 : Nat) = 0x80 ||| 0x70 := by decide
    rw [h, Nat.and_or_distrib_left, h7]
    simpa using h46
  simp [serve_connection, serve_connection_body, receive_commands, send_and_continue,
    hstate, h7, hf0]

/-- Witness for C4 at byte 0x10. -/
theorem c4_malformed_signal_byte_witness :
    serve_connection connected_state sig_zero 0 (0x10 :: [9]) .wouldBlock true =
      ({ connected_state with
          s_clock_notification_counter :=
            tick_decrement connected_state.s_clock_notification_counter
          s_connectionSocket := false },
       sig_zero, []) :=
  c4_malformed_signal_byte connected_state sig_zero 0 0x10 [9] .wouldBlock true
    rfl rfl (by decide) (by decide) (by decide)

/-- C7: a second init call while the module is initialized fails and
changes nothing (the stored configuration of the first call is intact). -/
theorem c7_double_init_fails (s : BridgeState) (tcp_port : Int)
    (ll : Nat) (half : Int) (vb : Nat)
    (h : s.s_already_initialized = true) :
    jtag_dpi_init s tcp_port ll half vb = (RET_FAILURE, s, false) := by
  simp [jtag_dpi_init, h]

/-- Witness for C7: re-init of an initialized module. -/
theorem c7_double_init_fails_witness :
    jtag_dpi_init connected_state 4567 0 3 1 = (RET_FAILURE, connected_state, false) :=
  c7_double_init_fails connected_state 4567 0 3 1 rfl

/-- C8: tick before any successful init returns failure and changes
neither the module state, the signals nor the socket world (no bytes are
sent); terminate before init changes no state. -/
theorem c8_pre_init_usage (s : BridgeState) (sig : Signals) (i : tick_input)
    (h : s.s_already_initialized = false) :
    jtag_dpi_tick s sig i = (RET_FAILURE, s, sig, [], false) ∧
      jtag_dpi_terminate s = s := by
  constructor
  · simp [jtag_dpi_tick, h]
  · simp [jtag_dpi_terminate, h]

/-- Witness for C8 at the process-start state. -/
theorem c8_pre_init_usage_witness :
    jtag_dpi_tick initial_bridge_state sig_zero
        { jtag_tdo := 0, queue := [9], e := .wouldBlock, sendOk := true,
          accept := some true } =
      (RET_FAILURE, initial_bridge_state, sig_zero, [], false) ∧
      jtag_dpi_terminate initial_bridge_state = initial_bridge_state :=
  c8_pre_init_usage initial_bridge_state sig_zero
    { jtag_tdo := 0, queue := [9], e := .wouldBlock, sendOk := true,
      accept := some true } rfl

/-- C10: init validates the TCP port only as a nonzero machine integer
and stores it into the uint16_t s_listening_tcp_port: for every nonzero
int tcp_port (other parameters valid, module uninitialized) init succeeds
and the stored listening port is tcp_port mod 2^16. -/
theorem c10_tcp_port_truncation (s : BridgeState) (tcp_port : Int)
    (ll : Nat) (half : Int) (vb : Nat)
    (hini : s.s_already_initialized = false) (hp : tcp_port ≠ 0)
    (hll : ll = 0 ∨ ll = 1) (hvb : vb = 0 ∨ vb = 1) (hh : half ≠ 0) :
    (jtag_dpi_init s tcp_port ll half vb).1 = RET_SUCCESS ∧
      (jtag_dpi_init s tcp_port ll half vb).2.1.s_listening_tcp_port =
        (tcp_port % 65536).toNat := by
  constructor <;>
    simp [jtag_dpi_init, create_listening_socket, hini, hp, hll, hvb, hh]

/-- Witness for C10: tcp_port = 65536 passes validation and yields
listening port 0. -/
theorem c10_tcp_port_truncation_witness :
    ((jtag_dpi_init initial_bridge_state 65536 0 3 0).1 = RET_SUCCESS ∧
      (jtag_dpi_init initial_bridge_state 65536 0 3 0).2.1.s_listening_tcp_port =
        ((65536 : Int) % 65536).toNat) ∧
      ((65536 : Int) % 65536).toNat = 0 :=
  ⟨c10_tcp_port_truncation initial_bridge_state 65536 0 3 0 rfl (by decide)
      (Or.inl rfl) (Or.inl rfl) (by decide),
   by decide⟩

@[simp] lemma except_bridge_ok (s : BridgeState) (sig : Signals) (sent : List Nat) :
    except_bridge (.ok (s, sig, sent)) = s := rfl

@[simp] lemma except_bridge_error (m : String) (s : BridgeState) (sig : Signals)
    (sent : List Nat) : except_bridge (.error (m, s, sig, sent)) = s := rfl

@[simp] lemma except_signals_ok (s : BridgeState) (sig : Signals) (sent : List Nat) :
    except_signals (.ok (s, sig, sent)) = sig := rfl

@[simp] lemma except_signals_error (m : String) (s : BridgeState) (sig : Signals)
    (sent : List Nat) : except_signals (.error (m, s, sig, sent)) = sig := rfl

@[simp] lemma except_bridge_send_and_continue (v : Nat)
    (r : Except (String × BridgeState × Signals × List Nat)
      (BridgeState × Signals × List Nat)) :
    except_bridge (send_and_continue v r) = except_bridge r := by
  rcases r with ⟨m, s2, sig2, sent⟩ | ⟨s2, sig2, sent⟩ <;> rfl

@[simp] lemma except_signals_send_and_continue (v : Nat)
    (r : Except (String × BridgeState × Signals × List Nat)
      (BridgeState × Signals × List Nat)) :
    except_signals (send_and_continue v r) = except_signals r := by
  rcases r with ⟨m, s2, sig2, sent⟩ | ⟨s2, sig2, sent⟩ <;> rfl

lemma receive_commands_bridge (P : BridgeState → Prop)
    (hclose : ∀ t, P t → P { t with s_connectionSocket := false })
    (hwait : ∀ t, P t → P { t with
      s_connectionState := .cs_waiting_to_send_clock_notification })
    (hreset : ∀ t, P t → P { t with
      s_clock_notification_counter := t.s_jtag_tck_half_period_tick_count }) :
    ∀ (queue : List Nat) (s : BridgeState) (sig : Signals) (tdo : Nat)
      (e : recv_end) (ok : Bool), P s →
      P (except_bridge (receive_commands s sig tdo queue e ok)) := by
  intro queue
  induction queue with
  | nil =>
      intro s sig tdo e ok hP
      cases e <;> simp [receive_commands] <;>
        first | exact hP | exact hclose s hP
  | cons b rest ih =>
      intro s sig tdo e ok hP
      simp only [receive_commands]
      split_ifs <;>
        simp <;>
        first
          | exact hP
          | exact hwait s hP
          | exact ih _ _ tdo e _ hP
          | exact ih _ _ tdo e _ (hreset s hP)
          | exact hreset s hP

lemma receive_commands_sig_frame :
    ∀ (queue : List Nat) (s : BridgeState) (sig : Signals) (tdo : Nat)
      (e : recv_end) (ok : Bool),
      (∀ b ∈ queue, b &&& 0xf0 ≠ 0) →
      except_signals (receive_commands s sig tdo queue e ok) = sig := by
  intro queue
  induction queue with
  | nil =>
      intro s sig tdo e ok h
      cases e <;> simp [receive_commands]
  | cons b rest ih =>
      intro s sig tdo e ok h
      have hb : b &&& 0xf0 ≠ 0 := h b (by simp)
      have hrest : ∀ x ∈ rest, x &&& 0xf0 ≠ 0 := fun x hx => h x (by simp [hx])
      by_cases h7 : b &&& 0x80 = 0
      · have h2 : b &&& 0xf0 ≠ 0 := hb
        simp [receive_commands, h7, h2]
      · simp only [receive_commands]
        split_ifs <;>
          simp <;>
          first
            | rfl
            | exact ih s sig tdo e _ hrest

lemma serve_connection_body_bridge (P : BridgeState → Prop)
    (hclose : ∀ t, P t → P { t with s_connectionSocket := false })
    (hwait : ∀ t, P t → P { t with
      s_connectionState := .cs_waiting_to_send_clock_notification })
    (hreset : ∀ t, P t → P { t with
      s_clock_notification_counter := t.s_jtag_tck_half_period_tick_count })
    (hrecv : ∀ t, P t → P { t with
      s_connectionState := .cs_waiting_to_receive_commands }) :
    ∀ (s1 : BridgeState) (sig : Signals) (tdo : Nat) (queue : List Nat)
      (e : recv_end) (ok : Bool), P s1 →
      P (except_bridge (serve_connection_body s1 sig tdo queue e ok)) := by
  intro s1 sig tdo queue e ok hP
  cases hcs : s1.s_connectionState with
  | cs_invalid => simp [serve_connection_body, hcs]; exact hP
  | cs_waiting_to_receive_commands =>
      simp [serve_connection_body, hcs]
      exact receive_commands_bridge P hclose hwait hreset queue s1 sig tdo e ok hP
  | cs_waiting_to_send_clock_notification =>
      simp only [serve_connection_body, hcs]
      split_ifs <;> simp
      · exact receive_commands_bridge P hclose hwait hreset queue _ sig tdo e ok
          (hrecv s1 hP)
      · exact hP
      · exact hP

lemma serve_connection_bridge (P : BridgeState → Prop)
    (hclose : ∀ t, P t → P { t with s_connectionSocket := false })
    (hwait : ∀ t, P t → P { t with
      s_connectionState := .cs_waiting_to_send_clock_notification })
    (hreset : ∀ t, P t → P { t with
      s_clock_notification_counter := t.s_jtag_tck_half_period_tick_count })
    (hrecv : ∀ t, P t → P { t with
      s_connectionState := .cs_waiting_to_receive_commands })
    (s : BridgeState) (sig : Signals) (tdo : Nat) (queue : List Nat)
    (e : recv_end) (ok : Bool)
    (hP : P { s with
      s_clock_notification_counter := tick_decrement s.s_clock_notification_counter }) :
    P (serve_connection s sig tdo queue e ok).1 := by
  have h := serve_connection_body_bridge P hclose hwait hreset hrecv
    { s with s_clock_notification_counter := tick_decrement s.s_clock_notification_counter }
    sig tdo queue e ok hP
  cases hb : serve_connection_body
      { s with s_clock_notification_counter := tick_decrement s.s_clock_notification_counter }
      sig tdo queue e ok with
  | ok r =>
      rcases r with ⟨s3, sig3, sent⟩
      rw [hb] at h
      simp at h
      simp only [serve_connection]
      rw [hb]
      simpa using h
  | error p =>
      rcases p with ⟨m, s3, sig3, sent⟩
      rw [hb] at h
      simp at h
      simp only [serve_connection]
      rw [hb]
      simpa using hclose s3 h

lemma serve_connection_half (s : BridgeState) (sig : Signals) (tdo : Nat)
    (queue : List Nat) (e : recv_end) (ok : Bool) :
    (serve_connection s sig tdo queue e ok).1.s_jtag_tck_half_period_tick_count =
      s.s_jtag_tck_half_period_tick_count :=
  serve_connection_bridge
    (fun t => t.s_jtag_tck_half_period_tick_count = s.s_jtag_tck_half_period_tick_count)
    (by intro t h; simpa using h) (by intro t h; simpa using h)
    (by intro t h; simpa using h) (by intro t h; simpa using h)
    s sig tdo queue e ok (by simp)

lemma serve_connection_flag (s : BridgeState) (sig : Signals) (tdo : Nat)
    (queue : List Nat) (e : recv_end) (ok : Bool) :
    (serve_connection s sig tdo queue e ok).1.s_listening_message_already_printed =
      s.s_listening_message_already_printed :=
  serve_connection_bridge
    (fun t => t.s_listening_message_already_printed = s.s_listening_message_already_printed)
    (by intro t h; simpa using h) (by intro t h; simpa using h)
    (by intro t h; simpa using h) (by intro t h; simpa using h)
    s sig tdo queue e ok (by simp)

lemma serve_connection_counter (s : BridgeState) (sig : Signals) (tdo : Nat)
    (queue : List Nat) (e : recv_end) (ok : Bool) :
    (serve_connection s sig tdo queue e ok).1.s_clock_notification_counter =
        tick_decrement s.s_clock_notification_counter ∨
      (serve_connection s sig tdo queue e ok).1.s_clock_notification_counter =
        s.s_jtag_tck_half_period_tick_count := by
  have h := serve_connection_bridge
    (fun t => t.s_jtag_tck_half_period_tick_count = s.s_jtag_tck_half_period_tick_count ∧
      (t.s_clock_notification_counter = tick_decrement s.s_clock_notification_counter ∨
        t.s_clock_notification_counter = s.s_jtag_tck_half_period_tick_count))
    (by intro t h; simpa using h) (by intro t h; simpa using h)
    (by intro t h; simp; exact ⟨h.1, Or.inr h.1⟩) (by intro t h; simpa using h)
    s sig tdo queue e ok (by simp)
  exact h.2

lemma serve_connection_body_sig (s1 : BridgeState) (sig : Signals) (tdo : Nat)
    (queue : List Nat) (e : recv_end) (ok : Bool)
    (hq : ∀ b ∈ queue, b &&& 0xf0 ≠ 0) :
    except_signals (serve_connection_body s1 sig tdo queue e ok) = sig := by
  cases hcs : s1.s_connectionState with
  | cs_invalid => simp [serve_connection_body, hcs]
  | cs_waiting_to_receive_commands =>
      simp [serve_connection_body, hcs]
      exact receive_commands_sig_frame queue s1 sig tdo e ok hq
  | cs_waiting_to_send_clock_notification =>
      simp only [serve_connection_body, hcs]
      split_ifs <;> simp
      exact receive_commands_sig_frame queue _ sig tdo e ok hq

lemma serve_connection_sig_frame (s : BridgeState) (sig : Signals) (tdo : Nat)
    (queue : List Nat) (e : recv_end) (ok : Bool)
    (hq : ∀ b ∈ queue, b &&& 0xf0 ≠ 0) :
    (serve_connection s sig tdo queue e ok).2.1 = sig := by
  have h := serve_connection_body_sig
    { s with s_clock_notification_counter := tick_decrement s.s_clock_notification_counter }
    sig tdo queue e ok hq
  cases hb : serve_connection_body
      { s with s_clock_notification_counter := tick_decrement s.s_clock_notification_counter }
      sig tdo queue e ok with
  | ok r =>
      rcases r with ⟨s3, sig3, sent⟩
      rw [hb] at h
      simp at h
      simp only [serve_connection]
      rw [hb]
      simpa using h
  | error p =>
      rcases p with ⟨m, s3, sig3, sent⟩
      rw [hb] at h
      simp at h
      simp only [serve_connection]
      rw [hb]
      simpa using h

/-- State used by witnesses: connected, awaiting commands, counter 5. -/
def counter5_state : BridgeState :=
  { connected_state with s_clock_notification_counter := 5 }

/-- State used by witnesses: connected, awaiting the clock notification,
counter 1 (the notification fires on the next tick). -/
def waiting1_state : BridgeState :=
  { connected_state with
      s_connectionState := .cs_waiting_to_send_clock_notification
      s_clock_notification_counter := 1 }

/-- State used by witnesses: connected, awaiting the clock notification,
counter 5. -/
def waiting5_state : BridgeState :=
  { connected_state with
      s_connectionState := .cs_waiting_to_send_clock_notification
      s_clock_notification_counter := 5 }

/-- State used by witnesses: initialized, no connection and no listening
socket (as after a connection drop). -/
def dropped_state : BridgeState :=
  { initial_bridge_state with s_already_initialized := true }

/-- C5: during a tick whose incoming bytes contain no valid signal-data
byte, the caller's four output signals keep their prior values; and a
0x80 read-TDO command replies with one byte equal to 1 iff TDO is
nonzero, changing no output signal. -/
theorem c5_signal_frame_and_read_tdo :
    (∀ (s : BridgeState) (sig : Signals) (i : tick_input),
        (∀ b ∈ i.queue, b &&& 0xf0 ≠ 0) →
        (jtag_dpi_tick s sig i).2.2.1 = sig) ∧
    (∀ (s : BridgeState) (sig : Signals) (tdo : Nat),
        s.s_connectionSocket = true →
        s.s_connectionState = .cs_waiting_to_receive_commands →
        serve_connection s sig tdo [0x80] .wouldBlock true =
          ({ s with s_clock_notification_counter :=
              tick_decrement s.s_clock_notification_counter },
           sig, [if tdo ≠ 0 then 1 else 0])) := by
  constructor
  · intro s sig i hq
    have hf : ∀ t, (serve_connection t sig i.jtag_tdo i.queue i.e i.sendOk).2.1 = sig :=
      fun t => serve_connection_sig_frame t sig i.jtag_tdo i.queue i.e i.sendOk hq
    by_cases hini : s.s_already_initialized
    · by_cases hconn : s.s_connectionSocket
      · simp [jtag_dpi_tick, hini, hconn, hf]
      · cases hacc : i.accept with
        | none =>
            simp [jtag_dpi_tick, hini, hconn, hacc, hf, create_listening_socket]
            split_ifs <;> simp [hf]
        | some b =>
            cases b <;>
              simp [jtag_dpi_tick, hini, hconn, hacc, hf, create_listening_socket] <;>
              split_ifs <;> simp [hf]
    · simp [jtag_dpi_tick, hini]
  · intro s sig tdo hconn hstate
    simp [serve_connection, serve_connection_body, receive_commands, send_and_continue,
      hstate]

/-- Witness for C5: a tick seeing only the 0x80 command leaves the
signals alone, and 0x80 with TDO = 1 replies with one byte. -/
theorem c5_signal_frame_and_read_tdo_witness :
    ((jtag_dpi_tick connected_state sig_zero
        { jtag_tdo := 1, queue := [0x80], e := .wouldBlock, sendOk := true,
          accept := none }).2.2.1 = sig_zero) ∧
    (serve_connection connected_state sig_zero 1 [0x80] .wouldBlock true =
      ({ connected_state with
          s_clock_notification_counter :=
            tick_decrement connected_state.s_clock_notification_counter },
       sig_zero, [if (1 : Nat) ≠ 0 then 1 else 0])) :=
  ⟨c5_signal_frame_and_read_tdo.1 connected_state sig_zero
      { jtag_tdo := 1, queue := [0x80], e := .wouldBlock, sendOk := true,
        accept := none } (by decide),
   c5_signal_frame_and_read_tdo.2 connected_state sig_zero 1 rfl rfl⟩

/-- C2: for a connected client awaiting commands, byte 0x81 with the
clock notification counter at 0 (at processing time, after the tick's
saturating decrement) gets an immediate 0xFF reply and the connection
stays in AwaitingCommands; with the counter above 0 the connection moves
to AwaitingClockNotification, nothing is sent, and any queued bytes are
left unprocessed.  While AwaitingClockNotification, a tick on which the
decremented counter is still nonzero does nothing; on the tick where it
reaches 0 the bridge sends 0xFF, returns to AwaitingCommands and
immediately drains the queued commands in that same tick. -/
theorem c2_clock_notification_protocol :
    (∀ (s : BridgeState) (sig : Signals) (tdo : Nat),
        s.s_connectionSocket = true →
        s.s_connectionState = .cs_waiting_to_receive_commands →
        tick_decrement s.s_clock_notification_counter = 0 →
        serve_connection s sig tdo [0x81] .wouldBlock true =
          ({ s with s_clock_notification_counter :=
              tick_decrement s.s_clock_notification_counter },
           sig, [CLOCK_NOTIFICATION_MSG])) ∧
    (∀ (s : BridgeState) (sig : Signals) (tdo : Nat) (rest : List Nat)
        (e : recv_end) (ok : Bool),
        s.s_connectionSocket = true →
        s.s_connectionState = .cs_waiting_to_receive_commands →
        tick_decrement s.s_clock_notification_counter ≠ 0 →
        serve_connection s sig tdo (0x81 :: rest) e ok =
          ({ s with
              s_clock_notification_counter := tick_decrement s.s_clock_notification_counter
              s_connectionState := .cs_waiting_to_send_clock_notification },
           sig, [])) ∧
    (∀ (s : BridgeState) (sig : Signals) (tdo : Nat) (queue : List Nat) (e : recv_end),
        s.s_connectionSocket = true →
        s.s_connectionState = .cs_waiting_to_send_clock_notification →
        tick_decrement s.s_clock_notification_counter = 0 →
        serve_connection s sig tdo queue e true =
          (match receive_commands
              { s with
                  s_clock_notification_counter := tick_decrement s.s_clock_notification_counter
                  s_connectionState := .cs_waiting_to_receive_commands }
              sig tdo queue e true with
            | .ok (s3, sig3, sent) => (s3, sig3, CLOCK_NOTIFICATION_MSG :: sent)
            | .error (_, s3, sig3, sent) =>
                ({ s3 with s_connectionSocket := false }, sig3,
                  CLOCK_NOTIFICATION_MSG :: sent))) ∧
    (∀ (s : BridgeState) (sig : Signals) (tdo : Nat) (queue : List Nat)
        (e : recv_end) (ok : Bool),
        s.s_connectionSocket = true →
        s.s_connectionState = .cs_waiting_to_send_clock_notification →
        tick_decrement s.s_clock_notification_counter ≠ 0 →
        serve_connection s sig tdo queue e ok =
          ({ s with s_clock_notification_counter :=
              tick_decrement s.s_clock_notification_counter },
           sig, [])) := by
  refine ⟨?_, ?_, ?_, ?_⟩
  · intro s sig tdo hconn hstate hc
    simp [serve_connection, serve_connection_body, receive_commands, send_and_continue,
      hstate, hc, CLOCK_NOTIFICATION_MSG]
  · intro s sig tdo rest e ok hconn hstate hc
    simp [serve_connection, serve_connection_body, receive_commands, send_and_continue,
      hstate, hc]
  · intro s sig tdo queue e hconn hstate hc
    cases hr : receive_commands
        { s with
            s_clock_notification_counter := tick_decrement s.s_clock_notification_counter
            s_connectionState := .cs_waiting_to_receive_commands }
        sig tdo queue e true with
    | ok r =>
        rcases r with ⟨s3, sig3, sent⟩
        rw [hc] at hr
        simp [serve_connection, serve_connection_body, hstate, hc, send_and_continue, hr]
    | error p =>
        rcases p with ⟨m, s3, sig3, sent⟩
        rw [hc] at hr
        simp [serve_connection, serve_connection_body, hstate, hc, send_and_continue, hr]
  · intro s sig tdo queue e ok hconn hstate hc
    simp [serve_connection, serve_connection_body, hstate, hc]

/-- Witness for C2: the four behaviours at counter values 0, 5, 1 and 5. -/
theorem c2_clock_notification_protocol_witness :
    (serve_connection connected_state sig_zero 0 [0x81] .wouldBlock true =
      ({ connected_state with
          s_clock_notification_counter :=
            tick_decrement connected_state.s_clock_notification_counter },
       sig_zero, [CLOCK_NOTIFICATION_MSG])) ∧
    (serve_connection counter5_state sig_zero 0 (0x81 :: [9]) .wouldBlock true =
      ({ counter5_state with
          s_clock_notification_counter := tick_decrement counter5_state.s_clock_notification_counter
          s_connectionState := .cs_waiting_to_send_clock_notification },
       sig_zero, [])) ∧
    (serve_connection waiting1_state sig_zero 0 [9] .wouldBlock true =
      (match receive_commands
          { waiting1_state with
              s_clock_notification_counter := tick_decrement waiting1_state.s_clock_notification_counter
              s_connectionState := .cs_waiting_to_receive_commands }
          sig_zero 0 [9] .wouldBlock true with
        | .ok (s3, sig3, sent) => (s3, sig3, CLOCK_NOTIFICATION_MSG :: sent)
        | .error (_, s3, sig3, sent) =>
            ({ s3 with s_connectionSocket := false }, sig3,
              CLOCK_NOTIFICATION_MSG :: sent))) ∧
    (serve_connection waiting5_state sig_zero 0 [9] .wouldBlock true =
      ({ waiting5_state with
          s_clock_notification_counter :=
            tick_decrement waiting5_state.s_clock_notification_counter },
       sig_zero, [])) :=
  ⟨c2_clock_notification_protocol.1 connected_state sig_zero 0 rfl rfl (by decide),
   c2_clock_notification_protocol.2.1 counter5_state sig_zero 0 [9] .wouldBlock true
     rfl rfl (by decide),
   c2_clock_notification_protocol.2.2.1 waiting1_state sig_zero 0 [9] .wouldBlock
     rfl rfl (by decide),
   c2_clock_notification_protocol.2.2.2 waiting5_state sig_zero 0 [9] .wouldBlock true
     rfl rfl (by decide)⟩

/-- C6: an error raised while servicing the connection (unrecognized
command, malformed signal byte, fatal transport error on receive or
send - all the error outcomes of the serve_connection body) makes the
tick close only that connection and still return RET_SUCCESS; when no
connection and no listener exists, a later tick recreates the listening
socket, and a pending client can then be accepted again. -/
theorem c6_connection_error_isolation :
    (∀ (s : BridgeState) (sig : Signals) (i : tick_input) (m : String)
        (s4 : BridgeState) (sig4 : Signals) (sent : List Nat),
        s.s_already_initialized = true →
        s.s_connectionSocket = true →
        serve_connection_body
            { s with s_clock_notification_counter :=
                tick_decrement s.s_clock_notification_counter }
            sig i.jtag_tdo i.queue i.e i.sendOk = .error (m, s4, sig4, sent) →
        jtag_dpi_tick s sig i =
          (RET_SUCCESS, { s4 with s_connectionSocket := false }, sig4, sent, false)) ∧
    (∀ (s : BridgeState) (sig : Signals) (i : tick_input),
        s.s_already_initialized = true →
        s.s_connectionSocket = false →
        s.s_listeningSocket = false →
        i.accept = none →
        (jtag_dpi_tick s sig i).1 = RET_SUCCESS ∧
          (jtag_dpi_tick s sig i).2.1.s_listeningSocket = true) ∧
    (∀ (s : BridgeState) (sig : Signals) (i : tick_input),
        s.s_already_initialized = true →
        s.s_connectionSocket = false →
        i.accept = some true →
        i.queue = [] → i.e = .wouldBlock →
        (jtag_dpi_tick s sig i).1 = RET_SUCCESS ∧
          (jtag_dpi_tick s sig i).2.1.s_connectionSocket = true ∧
          (jtag_dpi_tick s sig i).2.1.s_connectionState =
            .cs_waiting_to_receive_commands) := by
  refine ⟨?_, ?_, ?_⟩
  · intro s sig i m s4 sig4 sent hini hconn herr
    rw [hini, hconn] at herr
    simp [jtag_dpi_tick, hini, hconn, serve_connection, herr]
  · intro s sig i hini hconn hlisten hacc
    constructor <;>
      simp [jtag_dpi_tick, hini, hconn, hlisten, hacc, create_listening_socket] <;>
      split_ifs <;> simp_all
  · intro s sig i hini hconn hacc hq he
    refine ⟨?_, ?_, ?_⟩ <;>
      simp [jtag_dpi_tick, hini, hconn, hacc, hq, he, create_listening_socket,
        serve_connection, serve_connection_body, receive_commands]

/-- Witness for C6: an unrecognized command byte 0x82 closes only the
connection with tick succeeding; afterwards a tick from the dropped
state recreates the listener, and a pending client is accepted. -/
theorem c6_connection_error_isolation_witness :
    (jtag_dpi_tick connected_state sig_zero
        { jtag_tdo := 0, queue := [0x82], e := .wouldBlock, sendOk := true,
          accept := none } =
      (RET_SUCCESS,
       { { connected_state with
            s_clock_notification_counter :=
              tick_decrement connected_state.s_clock_notification_counter } with
          s_connectionSocket := false },
       sig_zero, [], false)) ∧
    ((jtag_dpi_tick dropped_state sig_zero
        { jtag_tdo := 0, queue := [], e := .wouldBlock, sendOk := true,
          accept := none }).1 = RET_SUCCESS ∧
      (jtag_dpi_tick dropped_state sig_zero
        { jtag_tdo := 0, queue := [], e := .wouldBlock, sendOk := true,
          accept := none }).2.1.s_listeningSocket = true) ∧
    ((jtag_dpi_tick dropped_state sig_zero
        { jtag_tdo := 0, queue := [], e := .wouldBlock, sendOk := true,
          accept := some true }).1 = RET_SUCCESS ∧
      (jtag_dpi_tick dropped_state sig_zero
        { jtag_tdo := 0, queue := [], e := .wouldBlock, sendOk := true,
          accept := some true }).2.1.s_connectionSocket = true ∧
      (jtag_dpi_tick dropped_state sig_zero
        { jtag_tdo := 0, queue := [], e := .wouldBlock, sendOk := true,
          accept := some true }).2.1.s_connectionState =
        .cs_waiting_to_receive_commands) :=
  ⟨c6_connection_error_isolation.1 connected_state sig_zero
      { jtag_tdo := 0, queue := [0x82], e := .wouldBlock, sendOk := true,
        accept := none }
      "Invalid command received"
      { connected_state with
          s_clock_notification_counter :=
            tick_decrement connected_state.s_clock_notification_counter }
      sig_zero [] rfl rfl rfl,
   c6_connection_error_isolation.2.1 dropped_state sig_zero
     { jtag_tdo := 0, queue := [], e := .wouldBlock, sendOk := true,
       accept := none } rfl rfl rfl rfl,
   c6_connection_error_isolation.2.2 dropped_state sig_zero
     { jtag_tdo := 0, queue := [], e := .wouldBlock, sendOk := true,
       accept := some true } rfl rfl rfl rfl rfl⟩

/-- Whether an event is an init call with a positive half-period (the
restriction the amended C3 needs) or any other call. -/
def good_event : dpi_event → Bool
  | .ev_init _ _ half _ => decide (0 < half)
  | _ => true

/-- Whether an event is a tick or terminate call (no re-init). -/
def non_init_event : dpi_event → Bool
  | .ev_init _ _ _ _ => false
  | _ => true

/-- A tick keeps the clock notification counter and the stored half
period nonnegative when they were. -/
lemma jtag_dpi_tick_counter_nonneg (s : BridgeState) (sig : Signals) (i : tick_input)
    (h1 : 0 ≤ s.s_clock_notification_counter)
    (h2 : 0 ≤ s.s_jtag_tck_half_period_tick_count) :
    0 ≤ (jtag_dpi_tick s sig i).2.1.s_clock_notification_counter ∧
      0 ≤ (jtag_dpi_tick s sig i).2.1.s_jtag_tck_half_period_tick_count := by
  have key : ∀ t : BridgeState, 0 ≤ t.s_clock_notification_counter →
      0 ≤ t.s_jtag_tck_half_period_tick_count →
      0 ≤ (serve_connection t sig i.jtag_tdo i.queue i.e i.sendOk).1.s_clock_notification_counter ∧
        0 ≤ (serve_connection t sig i.jtag_tdo i.queue i.e i.sendOk).1.s_jtag_tck_half_period_tick_count := by
    intro t ht1 ht2
    have hc := serve_connection_counter t sig i.jtag_tdo i.queue i.e i.sendOk
    have hh := serve_connection_half t sig i.jtag_tdo i.queue i.e i.sendOk
    constructor
    · rcases hc with h | h <;> rw [h]
      · unfold tick_decrement
        split_ifs <;> omega
      · omega
    · rw [hh]
      omega
  by_cases hini : s.s_already_initialized
  · by_cases hconn : s.s_connectionSocket
    · simpa [jtag_dpi_tick, hini, hconn] using key s h1 h2
    · cases hacc : i.accept with
      | none =>
          simp [jtag_dpi_tick, hini, hconn, hacc, create_listening_socket]
          split_ifs <;>
            first
              | exact key _ (by simpa using h1) (by simpa using h2)
              | simp_all
      | some b =>
          cases b <;>
            simp [jtag_dpi_tick, hini, hconn, hacc, create_listening_socket] <;>
            split_ifs <;>
            first
              | exact key _ (by simpa using h1) (by simpa using h2)
              | simp_all
  · simp [jtag_dpi_tick, hini, h1, h2]

/-- Any call keeps counter and half period nonnegative, provided an init
call carries a positive half period. -/
lemma dpi_step_counter_nonneg (p : BridgeState × Signals) (ev : dpi_event)
    (hg : good_event ev = true)
    (h1 : 0 ≤ p.1.s_clock_notification_counter)
    (h2 : 0 ≤ p.1.s_jtag_tck_half_period_tick_count) :
    0 ≤ (dpi_step p ev).1.1.s_clock_notification_counter ∧
      0 ≤ (dpi_step p ev).1.1.s_jtag_tck_half_period_tick_count := by
  cases ev with
  | ev_tick i => simpa [dpi_step] using jtag_dpi_tick_counter_nonneg p.1 p.2 i h1 h2
  | ev_terminate =>
      simp only [dpi_step, jtag_dpi_terminate]
      split_ifs <;> exact ⟨h1, h2⟩
  | ev_init port ll half vb =>
      have hhalf : 0 < half := by simpa [good_event] using hg
      simp only [dpi_step, jtag_dpi_init]
      split_ifs <;> simp [create_listening_socket, h1, h2] <;> omega

/-- Along a run of calls whose init events all carry a positive half
period, counter and half period stay nonnegative. -/
lemma dpi_run_counter_nonneg (es : List dpi_event) :
    ∀ p : BridgeState × Signals,
      (∀ ev ∈ es, good_event ev = true) →
      0 ≤ p.1.s_clock_notification_counter →
      0 ≤ p.1.s_jtag_tck_half_period_tick_count →
      0 ≤ (dpi_run p es).1.s_clock_notification_counter ∧
        0 ≤ (dpi_run p es).1.s_jtag_tck_half_period_tick_count := by
  induction es with
  | nil =>
      intro p h h1 h2
      exact ⟨h1, h2⟩
  | cons ev rest ih =>
      intro p h h1 h2
      have hg := h ev (by simp)
      have hrest : ∀ x ∈ rest, good_event x = true := fun x hx => h x (by simp [hx])
      have hstep := dpi_step_counter_nonneg p ev hg h1 h2
      simpa [dpi_run] using ih (dpi_step p ev).1 hrest hstep.1 hstep.2

/-- Once the bind-address message flag is set, a tick prints nothing and
keeps the flag set. -/
lemma jtag_dpi_tick_no_reprint (s : BridgeState) (sig : Signals) (i : tick_input)
    (h : s.s_listening_message_already_printed = true) :
    (jtag_dpi_tick s sig i).2.2.2.2 = false ∧
      (jtag_dpi_tick s sig i).2.1.s_listening_message_already_printed = true := by
  by_cases hini : s.s_already_initialized
  · by_cases hconn : s.s_connectionSocket
    · simp [jtag_dpi_tick, hini, hconn, serve_connection_flag, h]
    · cases hacc : i.accept with
      | none =>
          simp [jtag_dpi_tick, hini, hconn, hacc, create_listening_socket, h]
          split_ifs <;> simp_all [serve_connection_flag]
      | some b =>
          cases b <;>
            simp [jtag_dpi_tick, hini, hconn, hacc, create_listening_socket, h] <;>
            split_ifs <;> simp_all [serve_connection_flag]
  · simp [jtag_dpi_tick, hini, h]

/-- A tick that prints the bind-address message leaves the flag set. -/
lemma jtag_dpi_tick_print_sets_flag (s : BridgeState) (sig : Signals) (i : tick_input)
    (h : (jtag_dpi_tick s sig i).2.2.2.2 = true) :
    (jtag_dpi_tick s sig i).2.1.s_listening_message_already_printed = true := by
  by_cases hini : s.s_already_initialized
  · by_cases hconn : s.s_connectionSocket
    · simp [jtag_dpi_tick, hini, hconn] at h
    · cases hacc : i.accept with
      | none =>
          simp [jtag_dpi_tick, hini, hconn, hacc, create_listening_socket] at h ⊢
          split_ifs at h ⊢ <;> simp_all [serve_connection_flag]
      | some b =>
          cases b <;>
            simp [jtag_dpi_tick, hini, hconn, hacc, create_listening_socket] at h ⊢ <;>
            split_ifs at h ⊢ <;> simp_all [serve_connection_flag]
  · simp [jtag_dpi_tick, hini] at h

/-- With the flag already set, a run of tick/terminate calls prints the
bind-address message zero times. -/
lemma dpi_run_prints_zero (es : List dpi_event) :
    ∀ p : BridgeState × Signals,
      (∀ ev ∈ es, non_init_event ev = true) →
      p.1.s_listening_message_already_printed = true →
      dpi_run_prints p es = 0 := by
  induction es with
  | nil =>
      intro p h hf
      simp [dpi_run_prints]
  | cons ev rest ih =>
      intro p h hf
      have hev := h ev (by simp)
      have hrest : ∀ x ∈ rest, non_init_event x = true := fun x hx => h x (by simp [hx])
      cases ev with
      | ev_init port ll half vb => simp [non_init_event] at hev
      | ev_terminate =>
          have hkeep : (dpi_step p .ev_terminate).1.1.s_listening_message_already_printed = true := by
            simp only [dpi_step, jtag_dpi_terminate]
            split_ifs <;> simpa using hf
          simp only [dpi_run_prints, dpi_step]
          simpa using ih _ hrest hkeep
      | ev_tick i =>
          have h2 := jtag_dpi_tick_no_reprint p.1 p.2 i hf
          simp only [dpi_run_prints]
          rw [ih (dpi_step p (.ev_tick i)).1 hrest (by simpa [dpi_step] using h2.2)]
          simp [dpi_step, h2.1]

/-- C9 (amended): within one initialization lifetime - along any sequence
of tick and terminate calls with no intervening init - the bind-address
informational message is printed at most once, in particular across
listening-socket recreations after connection drops; the original claim's
"once per process lifetime" fails because init resets the once-flag (see
the counterexample). -/
theorem c9_listening_message_amended (es : List dpi_event) :
    ∀ p : BridgeState × Signals,
      (∀ ev ∈ es, non_init_event ev = true) →
      dpi_run_prints p es ≤ 1 := by
  induction es with
  | nil =>
      intro p h
      simp [dpi_run_prints]
  | cons ev rest ih =>
      intro p h
      have hev := h ev (by simp)
      have hrest : ∀ x ∈ rest, non_init_event x = true := fun x hx => h x (by simp [hx])
      by_cases hp : (dpi_step p ev).2.2.2 = true
      · have hflag : (dpi_step p ev).1.1.s_listening_message_already_printed = true := by
          cases ev with
          | ev_init port ll half vb => simp [non_init_event] at hev
          | ev_terminate => simp [dpi_step] at hp
          | ev_tick i =>
              have := jtag_dpi_tick_print_sets_flag p.1 p.2 i (by simpa [dpi_step] using hp)
              simpa [dpi_step] using this
        have hz := dpi_run_prints_zero rest (dpi_step p ev).1 hrest hflag
        simp [dpi_run_prints, hp, hz]
      · have hp0 : (dpi_step p ev).2.2.2 = false := by simpa using hp
        simp [dpi_run_prints, hp0]
        exact ih _ hrest

/-- Tick oracle used by counterexamples: a pending client is accepted and
it has sent the single signal-data byte 0. -/
def accept_and_write_input : tick_input :=
  { jtag_tdo := 0, queue := [0], e := .wouldBlock, sendOk := true, accept := some true }

/-- Tick oracle used by witnesses: nothing pending at all. -/
def idle_tick_input : tick_input :=
  { jtag_tdo := 0, queue := [], e := .wouldBlock, sendOk := true, accept := none }

/-- C3 counterexample: the spec accepts init with half_period_ticks = -1
(any nonzero value passes validation); after that init succeeds, one tick
that accepts a client and processes the signal-data byte 0 leaves the
clock notification counter at -1, violating the claimed invariant
counter >= 0. -/
theorem c3_counter_nonneg_counterexample :
    ((dpi_step (initial_bridge_state, sig_zero) (.ev_init 4321 0 (-1) 0)).2.1 =
      RET_SUCCESS) ∧
    ((dpi_run (initial_bridge_state, sig_zero)
        [ .ev_init 4321 0 (-1) 0,
          .ev_tick accept_and_write_input ]).1.s_clock_notification_counter = -1) ∧
    ¬ (0 ≤ (dpi_run (initial_bridge_state, sig_zero)
        [ .ev_init 4321 0 (-1) 0,
          .ev_tick accept_and_write_input ]).1.s_clock_notification_counter) := by
  refine ⟨by decide, by decide, by decide⟩

/-- C3 (amended): restricted to init calls with a positive half-period
the invariant holds: from process start the clock notification counter is
always >= 0; each tick changes it by the saturating decrement (which
stays >= 0, decreases by at most one and never increases) unless a
signal-write resets it to the configured half-period; and processing a
valid signal-data byte does reset it to the half-period value.  The
unamended claim quantified over every nonzero half_period_ticks,
including negatives, and fails there. -/
theorem c3_counter_invariant_amended :
    (∀ (es : List dpi_event) (sig : Signals),
        (∀ ev ∈ es, good_event ev = true) →
        0 ≤ (dpi_run (initial_bridge_state, sig) es).1.s_clock_notification_counter) ∧
    (∀ (s : BridgeState) (sig : Signals) (tdo : Nat) (queue : List Nat)
        (e : recv_end) (ok : Bool),
        (serve_connection s sig tdo queue e ok).1.s_clock_notification_counter =
            tick_decrement s.s_clock_notification_counter ∨
          (serve_connection s sig tdo queue e ok).1.s_clock_notification_counter =
            s.s_jtag_tck_half_period_tick_count) ∧
    (∀ c : Int, 0 ≤ c →
        0 ≤ tick_decrement c ∧ c - 1 ≤ tick_decrement c ∧ tick_decrement c ≤ c) ∧
    (∀ (s : BridgeState) (sig : Signals) (tdo b : Nat),
        s.s_connectionSocket = true →
        s.s_connectionState = .cs_waiting_to_receive_commands →
        b < 256 → b &&& 0x80 = 0 → b &&& 0x70 = 0 →
        (serve_connection s sig tdo [b] .wouldBlock true).1.s_clock_notification_counter =
          s.s_jtag_tck_half_period_tick_count) := by
  refine ⟨?_, ?_, ?_, ?_⟩
  · intro es sig h
    exact (dpi_run_counter_nonneg es (initial_bridge_state, sig) h
      (by simp [initial_bridge_state]) (by simp [initial_bridge_state])).1
  · intro s sig tdo queue e ok
    exact serve_connection_counter s sig tdo queue e ok
  · intro c hc
    unfold tick_decrement
    split_ifs <;> omega
  · intro s sig tdo b hconn hstate hb h7 h46
    have hf0 : b &&& 0xf0 = 0 := by
      have h : (0xf0 : Nat) = 0x80 ||| 0x70 := by decide
      rw [h, Nat.and_or_distrib_left, h7, h46]
      decide
    simp [serve_connection, serve_connection_body, receive_commands, send_and_continue,
      hstate, h7, hf0]

/-- Witness for the amended C3. -/
theorem c3_counter_invariant_amended_witness :
    (0 ≤ (dpi_run (initial_bridge_state, sig_zero)
        [ .ev_init 4321 0 3 1 ]).1.s_clock_notification_counter) ∧
    ((serve_connection counter5_state sig_zero 0 [] .wouldBlock true).1.s_clock_notification_counter =
        tick_decrement counter5_state.s_clock_notification_counter ∨
      (serve_connection counter5_state sig_zero 0 [] .wouldBlock true).1.s_clock_notification_counter =
        counter5_state.s_jtag_tck_half_period_tick_count) ∧
    (0 ≤ tick_decrement 5 ∧ (5 : Int) - 1 ≤ tick_decrement 5 ∧ tick_decrement 5 ≤ 5) ∧
    ((serve_connection connected_state sig_zero 0 [9] .wouldBlock true).1.s_clock_notification_counter =
      connected_state.s_jtag_tck_half_period_tick_count) :=
  ⟨c3_counter_invariant_amended.1 [ .ev_init 4321 0 3 1 ] sig_zero (by decide),
   c3_counter_invariant_amended.2.1 counter5_state sig_zero 0 [] .wouldBlock true,
   c3_counter_invariant_amended.2.2.1 5 (by decide),
   c3_counter_invariant_amended.2.2.2 connected_state sig_zero 0 9 rfl rfl (by decide) (by decide)
     (by decide)⟩

/-- C9 counterexample: init, terminate, init again - with informational
messages enabled - prints the bind-address message twice in one process
lifetime, because jtag_dpi_init resets s_listening_message_already_printed. -/
theorem c9_listening_message_counterexample :
    1 < dpi_run_prints (initial_bridge_state, sig_zero)
      [ .ev_init 4321 0 3 1, .ev_terminate, .ev_init 4321 0 3 1 ] := by
  decide

/-- Witness for the amended C9. -/
theorem c9_listening_message_amended_witness :
    dpi_run_prints (initial_bridge_state, sig_zero)
      [ .ev_tick idle_tick_input, .ev_terminate ] ≤ 1 :=
  c9_listening_message_amended
    [ .ev_tick idle_tick_input, .ev_terminate ]
    (initial_bridge_state, sig_zero) (by decide)
